import Mathlib

/-!
Shallow embedding of the efficiency-pentathlon benchmark harness.

Covered source files:
* `src/docker/execute.py` — telemetry aggregation over the three sampler CSV
  files (gpu.csv, cpu.csv, docker.csv) and the monitor start/stop sequence.
* `src/submission/mt_mbart/entrypoint.py` — the stdio predictor wrapper
  implementing the line-delimited JSON-array IPC protocol.
* `src/efficiency_benchmark/dependencies/lm_eval/tasks/drop.py` — the
  `DROP.get_answers` / `DROP.parse_answer` answer-deduplication logic.

Machine floats are modelled as exact rationals (ℚ); Python exceptions are
modelled with `Except` / `Option`.
-/

namespace EffPent

/-! ### Sampler CSV rows (`src/docker/execute.py`, lines 56-78)

Each structure is one data row of the corresponding CSV file, with the numeric
fields already parsed.  `DockerRow.cpu_util` / `mem_util` hold the percentage
value after stripping the `%` suffix (the code divides by 100 itself). -/

structure GpuRow where
  energy : ℚ
  max_mem : ℚ
  deriving DecidableEq

structure CpuRow where
  cpu_energy : ℚ
  dram_energy : ℚ
  deriving DecidableEq

structure DockerRow where
  cpu_util : ℚ
  mem_util : ℚ
  deriving DecidableEq

/-- The running accumulator of the gpu.csv loop (execute.py lines 58-62):
`(gpu_energy, max_gpu_mem)`.  Note the source adds `max_mem` into
`max_gpu_mem` (`max_gpu_mem = max_gpu_mem + float(row["max_mem"])`). -/
def gpuLoop : List GpuRow → ℚ × ℚ → ℚ × ℚ
  | [], s => s
  | r :: rest, s => gpuLoop rest (s.1 + r.energy, s.2 + r.max_mem)

/-- The running accumulator of the cpu.csv loop (execute.py lines 63-67):
`(cpu_energy, mem_energy)` raw sums of `cpu_energy` and `dram_energy`. -/
def cpuLoop : List CpuRow → ℚ × ℚ → ℚ × ℚ
  | [], s => s
  | r :: rest, s => cpuLoop rest (s.1 + r.cpu_energy, s.2 + r.dram_energy)

/-- State of the docker.csv loop (execute.py lines 68-78). -/
structure DockerStats where
  cpu_util : ℚ
  mem_util : ℚ
  max_mem_util : ℚ
  num_rows : ℚ
  deriving DecidableEq

/-- Initial docker-loop state: `cpu_util, mem_util, max_mem_util = 0`,
`num_rows = 1e-6` (execute.py lines 70-71). -/
def initDockerStats : DockerStats := ⟨0, 0, 0, 1 / 1000000⟩

/-- The docker.csv loop body (execute.py lines 72-76).  Per row:
`num_rows += 1`; `cpu_util += pct/100`; `mem_util += pct/100`;
`max_mem_util = max(max_mem_util, mem_util)` — note the comparison is against
the running sum `mem_util`, not the per-row value. -/
def dockerLoop : List DockerRow → DockerStats → DockerStats
  | [], s => s
  | r :: rest, s =>
    let mu := s.mem_util + r.mem_util / 100
    dockerLoop rest
      { cpu_util := s.cpu_util + r.cpu_util / 100
        mem_util := mu
        max_mem_util := max s.max_mem_util mu
        num_rows := s.num_rows + 1 }

/-- The quantities printed at the end of execute.py (lines 85-92), plus the
two utilization fractions computed on lines 77-78. -/
structure Report where
  time_elapsed : ℚ
  throughput : ℚ
  gpu_energy : ℚ
  cpu_energy : ℚ
  mem_energy : ℚ
  total_energy : ℚ
  cpu_util : ℚ
  mem_util : ℚ
  max_dram_mem : ℚ
  max_gpu_mem : ℚ
  deriving DecidableEq

/-- The whole aggregation of execute.py lines 56-92: reads the three row
lists, computes the apportioned energies and the printed report.
`num_cpus` is `multiprocessing.cpu_count()`, `total_memory` the parsed
MemTotal in GiB, `num_instances` the dataset size, `time_elapsed` the
measured wall-clock interval. -/
def aggregate (gpuRows : List GpuRow) (cpuRows : List CpuRow)
    (dockerRows : List DockerRow) (num_cpus : ℕ) (total_memory : ℚ)
    (num_instances : ℚ) (time_elapsed : ℚ) : Report :=
  let g := gpuLoop gpuRows (0, 0)
  let c := cpuLoop cpuRows (0, 0)
  let st := dockerLoop dockerRows initDockerStats
  let cpu_util := st.cpu_util / st.num_rows / (num_cpus : ℚ)
  let mem_util := st.mem_util / st.num_rows
  let cpu_energy := c.1 * cpu_util
  let mem_energy := c.2 * mem_util
  { time_elapsed := time_elapsed
    throughput := num_instances / time_elapsed
    gpu_energy := g.1
    cpu_energy := cpu_energy
    mem_energy := mem_energy
    total_energy := g.1 + cpu_energy + mem_energy
    cpu_util := cpu_util
    mem_util := mem_util
    max_dram_mem := st.max_mem_util * total_memory
    max_gpu_mem := g.2 }

/-- Peak DRAM usage as the spec words it: (maximum observed per-row
memory-utilization fraction) × (total host memory).  Stated from the spec, to
be compared with `Report.max_dram_mem` computed by the code. -/
def specPeakDram (dockerRows : List DockerRow) (total_memory : ℚ) : ℚ :=
  ((dockerRows.map (fun r => r.mem_util / 100)).foldr max 0) * total_memory

/-- Peak GPU memory as claim C2 words it: the maximum of the rows' `max_mem`
fields.  Stated from the spec, to be compared with `Report.max_gpu_mem`. -/
def specMaxGpuMem (gpuRows : List GpuRow) : ℚ :=
  ((gpuRows.map GpuRow.max_mem).foldr max 0)

/-! ### Row-level parse failures (execute.py lines 72-76)

A docker.csv row before numeric parsing: each field is `some q` when
`float(row[...].strip("%"))` succeeds with value `q`, and `none` when the
parse raises `ValueError`.  The loop body performs the parses inline, so a
failing field aborts the whole aggregation (the exception propagates). -/

structure DockerRowRaw where
  cpu_util : Option ℚ
  mem_util : Option ℚ
  deriving DecidableEq

/-- The docker.csv loop over unparsed rows.  A row whose `cpu_util` or
`mem_util` field fails to parse raises `ValueError`, modelled as
`Except.error ()`; there is no skipping logic in the source. -/
def dockerLoopRaw : List DockerRowRaw → DockerStats → Except Unit DockerStats
  | [], s => .ok s
  | r :: rest, s =>
    match r.cpu_util, r.mem_util with
    | some cu, some mu0 =>
      let mu := s.mem_util + mu0 / 100
      dockerLoopRaw rest
        { cpu_util := s.cpu_util + cu / 100
          mem_util := mu
          max_mem_util := max s.max_mem_util mu
          num_rows := s.num_rows + 1 }
    | _, _ => .error ()

/-- docker.csv aggregation from raw rows: the post-loop division steps of
execute.py lines 77-78, returning `(cpu_util, mem_util, max_mem_util)` or the
propagated `ValueError`. -/
def aggregateDockerRaw (rows : List DockerRowRaw) (num_cpus : ℕ) :
    Except Unit (ℚ × ℚ × ℚ) :=
  (dockerLoopRaw rows initDockerStats).map fun st =>
    (st.cpu_util / st.num_rows / (num_cpus : ℚ), st.mem_util / st.num_rows,
      st.max_mem_util)

/-! ### Missing telemetry files (execute.py lines 58, 63, 68)

Each `open(...)` either yields the file's parsed data rows (`some rows`) or
raises `FileNotFoundError` (`none`), which aborts the run. -/

/-- The whole aggregation phase at file granularity: each of the three CSV
files is `some rows` when it exists (possibly with zero data rows) and `none`
when absent; an absent file raises, modelled as `Except.error ()`. -/
def aggregateRun (gpuFile : Option (List GpuRow)) (cpuFile : Option (List CpuRow))
    (dockerFile : Option (List DockerRow)) (num_cpus : ℕ) (total_memory : ℚ)
    (num_instances : ℚ) (time_elapsed : ℚ) : Except Unit Report :=
  match gpuFile, cpuFile, dockerFile with
  | some g, some c, some d =>
    .ok (aggregate g c d num_cpus total_memory num_instances time_elapsed)
  | _, _, _ => .error ()

/-! ### Monitor shutdown check (execute.py lines 48-53)

After `os.kill(p.pid, SIGTERM)` the code runs `if not p.poll(): print("...
correctly halted")`.  `Popen.poll()` returns `None` while the process has not
exited and the exit code once it has; Python treats both `None` and `0` as
falsy. -/

/-- Whether the "<...> monitor correctly halted" message is printed, as a
function of the `poll()` result (`none` = process has not exited, `some c` =
process exited with code `c`). -/
def monitorHaltReported (poll : Option Int) : Bool :=
  match poll with
  | none => true
  | some code => code == 0

/-! ### Program-order trace of execute.py (lines 26-68)

The main script is straight-line code; `executeTrace` lists its externally
relevant actions in source order.  The energy sampler is the container
(started line 26 running `profile_cpu.py`, killed line 54); the GPU and
docker-stats samplers are the subprocesses of lines 39-40. -/

inductive Ev where
  | startEnergyContainer
  | startGpuSampler
  | startDockerSampler
  | takeStartTime
  | runWorkload
  | takeEndTime
  | signalGpuStop
  | pollGpu
  | signalDockerStop
  | pollDocker
  | signalEnergyStop
  | readGpuCsv
  | readCpuCsv
  | readDockerCsv
  deriving DecidableEq

/-- The actions of execute.py in program order (lines 26, 39, 40, 44, 45, 46,
48, 49, 51, 52, 54, 58, 63, 68). -/
def executeTrace : List Ev :=
  [.startEnergyContainer, .startGpuSampler, .startDockerSampler,
   .takeStartTime, .runWorkload, .takeEndTime,
   .signalGpuStop, .pollGpu, .signalDockerStop, .pollDocker, .signalEnergyStop,
   .readGpuCsv, .readCpuCsv, .readDockerCsv]

/-! ### Stdio predictor wrapper (`src/submission/mt_mbart/entrypoint.py`, lines 10-28)

A stdin line is modelled after `json.loads` + the `isinstance(inputs, list)`
assertion: `some items` when the line is a valid JSON array with the given
items, `none` when it is not valid JSON or not an array (in which case the
exception aborts the loop).  A stdout action is either writing one line
holding the JSON encoding of an array, or a flush. -/

inductive OutEvent (β : Type) where
  | writeArrayLine (items : List β)
  | flush
  deriving DecidableEq

/-- `stdio_predictor_wrapper`: for each stdin line in order, decode it (a
failure aborts the loop: result flag `true`), call `predictor.predict`,
materialize the generator (`[o for o in outputs]`), write the JSON-encoded
output array as one line and flush.  Returns the stdout actions and whether
the loop was aborted by an exception. -/
def stdioPredictorWrapper {α β : Type} (predict : List α → List β) :
    List (Option (List α)) → List (OutEvent β) × Bool
  | [] => ([], false)
  | none :: _ => ([], true)
  | some inputs :: rest =>
    let outputs := predict inputs
    let t := stdioPredictorWrapper predict rest
    (.writeArrayLine outputs :: .flush :: t.1, t.2)

/-! ### DROP answer parsing
(`src/efficiency_benchmark/dependencies/lm_eval/tasks/drop.py`, lines 70-112)

A DROP answer record has a `number` string, a `date` dict with `day`,
`month`, `year` strings, and a `spans` list of strings.  `parse_answer`
returns a tuple, modelled as a `List String`. -/

structure DateAns where
  day : String
  month : String
  year : String
  deriving DecidableEq

structure AnswerRec where
  number : String
  date : DateAns
  spans : List String
  deriving DecidableEq

/-- The `validated_answers` dict of a question-answer record: three parallel
lists. -/
structure ValidatedAnswers where
  number : List String
  date : List DateAns
  spans : List (List String)
  deriving DecidableEq

/-- A question-answer record, restricted to the fields `get_answers` reads. -/
structure QA where
  answer : AnswerRec
  validated_answers : ValidatedAnswers
  deriving DecidableEq

/-- `DROP.parse_answer` (drop.py lines 101-112): a non-empty `number` wins,
then a non-empty `spans` tuple, else the joined-and-stripped date. -/
def parse_answer (a : AnswerRec) : List String :=
  if a.number ≠ "" then [a.number]
  else if a.spans ≠ [] then a.spans
  else [(String.intercalate " " [a.date.day, a.date.month, a.date.year]).trim]

/-- `_flatten_validated_answers` (drop.py lines 72-86): for each index `i`
below `len(validated_answers["number"])`, build a record from the `i`-th
entry of each of the three lists; an out-of-range index raises `IndexError`
(`none`). -/
def flattenValidatedAnswers (va : ValidatedAnswers) : Option (List AnswerRec) :=
  (List.range va.number.length).mapM fun i => do
    let n ← va.number[i]?
    let d ← va.date[i]?
    let s ← va.spans[i]?
    pure ⟨n, d, s⟩

/-- The candidate loop of `get_answers` (drop.py lines 93-98): walk the
candidates, parse each, append the parse to `answers` unless already seen.
The source keeps a companion `answers_set` whose contents always equal those
of `answers`; the membership test is modelled on the list directly. -/
def getAnswersLoop : List AnswerRec → List (List String) → List (List String)
  | [], answers => answers
  | c :: rest, answers =>
    let a := parse_answer c
    if a ∈ answers then getAnswersLoop rest answers
    else getAnswersLoop rest (answers ++ [a])

/-- `DROP.get_answers` (drop.py lines 70-99): candidates are the primary
answer followed by the flattened validated answers; the result is the
first-occurrence deduplication of their parses.  `none` models the
`IndexError` from `_flatten_validated_answers` on a ragged record. -/
def get_answers (qa : QA) : Option (List (List String)) :=
  (flattenValidatedAnswers qa.validated_answers).map fun flat =>
    getAnswersLoop (qa.answer :: flat) []

/-- Structural form of first-occurrence deduplication: keep the head, drop
its later duplicates, recurse.  Proved below to coincide with
`getAnswersLoop` started from an empty accumulator; used to reason about the
order of `get_answers` results. -/
def dedupF {α : Type} [DecidableEq α] : List α → List α
  | [] => []
  | x :: xs => x :: dedupF (xs.filter fun y => y ≠ x)
termination_by l => l.length
decreasing_by
  simp_wf
  exact Nat.lt_succ_of_le (List.length_filter_le _ _)

/-! ### Helper lemmas -/

theorem gpuLoop_eq (rows : List GpuRow) (s : ℚ × ℚ) :
    gpuLoop rows s =
      (s.1 + (rows.map GpuRow.energy).sum, s.2 + (rows.map GpuRow.max_mem).sum) := by
  induction rows generalizing s with
  | nil => simp [gpuLoop]
  | cons r rest ih => simp [gpuLoop, ih]; constructor <;> ring

theorem cpuLoop_eq (rows : List CpuRow) (s : ℚ × ℚ) :
    cpuLoop rows s =
      (s.1 + (rows.map CpuRow.cpu_energy).sum, s.2 + (rows.map CpuRow.dram_energy).sum) := by
  induction rows generalizing s with
  | nil => simp [cpuLoop]
  | cons r rest ih => simp [cpuLoop, ih]; constructor <;> ring

theorem dockerLoop_replicate_fifty (n : ℕ) (s : DockerStats) :
    (dockerLoop (List.replicate n ⟨50, 50⟩) s).cpu_util = s.cpu_util + n / 2 ∧
    (dockerLoop (List.replicate n ⟨50, 50⟩) s).num_rows = s.num_rows + n := by
  induction n generalizing s with
  | zero => simp [dockerLoop]
  | succ m ih =>
    rw [List.replicate_succ]
    have h := ih { cpu_util := s.cpu_util + 50 / 100,
                   mem_util := s.mem_util + 50 / 100,
                   max_mem_util := max s.max_mem_util (s.mem_util + 50 / 100),
                   num_rows := s.num_rows + 1 }
    simp only [dockerLoop] at h ⊢
    refine ⟨h.1.trans ?_, h.2.trans ?_⟩ <;> push_cast <;> ring

/-! ### Claims -/

/-- Claim C1: the spec says peak DRAM usage is (maximum observed per-row
memory-utilization fraction) × (total host memory).  The code instead takes
the maximum of the RUNNING SUM of the per-row fractions (execute.py line 76
compares against the accumulator `mem_util`, not the row value), so for two
50% rows on a 16 GiB host it reports 16 GiB — the whole host memory — where
the spec formula gives 8 GiB.  The printed label "Max DRAM Memory Usage"
shows the spec formula is the intent; the comparison against the running sum
is a slip (it can exceed total host memory). -/
theorem c1_peak_dram_uses_running_sum :
    (aggregate [] [] [⟨50, 50⟩, ⟨50, 50⟩] 1 16 1 1).max_dram_mem = 16 ∧
    specPeakDram [⟨50, 50⟩, ⟨50, 50⟩] 16 = 8 ∧ (16 : ℚ) ≠ 8 := by
  refine ⟨?_, ?_, by norm_num⟩
  · norm_num [aggregate, dockerLoop, initDockerStats, gpuLoop, cpuLoop]
  · norm_num [specPeakDram]

/-- Claim C2 counterexample: for GPU rows with `max_mem` fields 1 and 2 the
code reports `max_gpu_mem = 3` (execute.py line 62 adds the fields), while
the claim's maximum would be 2. -/
theorem c2_max_gpu_mem_summed_counterexample :
    (aggregate [⟨0, 1⟩, ⟨0, 2⟩] [] [] 1 1 1 1).max_gpu_mem = 3 ∧
    specMaxGpuMem [⟨0, 1⟩, ⟨0, 2⟩] = 2 ∧ (3 : ℚ) ≠ 2 := by
  refine ⟨?_, ?_, by norm_num⟩
  · norm_num [aggregate, dockerLoop, initDockerStats, gpuLoop, cpuLoop]
  · norm_num [specMaxGpuMem]

/-- Claim C2 amended: the reported `gpu_energy` is the sum of the rows'
`energy` fields, and the reported `max_gpu_mem` is the SUM (not the maximum)
of the rows' `max_mem` fields — both are accumulated across rows. -/
theorem c2_gpu_energy_and_max_mem_are_sums (gpuRows : List GpuRow)
    (cpuRows : List CpuRow) (dockerRows : List DockerRow) (num_cpus : ℕ)
    (tm ni te : ℚ) :
    (aggregate gpuRows cpuRows dockerRows num_cpus tm ni te).gpu_energy =
      (gpuRows.map GpuRow.energy).sum ∧
    (aggregate gpuRows cpuRows dockerRows num_cpus tm ni te).max_gpu_mem =
      (gpuRows.map GpuRow.max_mem).sum := by
  simp [aggregate, gpuLoop_eq]

/-- Claim C5: after `os.kill` the code runs `if not p.poll(): print("...
correctly halted")`.  `poll()` returns `None` precisely when the process has
NOT yet exited, and `not None` is `True`, so the "correctly halted" message
is printed exactly when no exit has been detected; conversely a detected
SIGTERM exit (code -15) suppresses the message.  There is no bounded-timeout
wait and no failed marking anywhere in the shutdown sequence. -/
theorem c5_halted_reported_without_exit_detected :
    monitorHaltReported none = true ∧ monitorHaltReported (some (-15)) = false := by
  constructor <;> rfl

/-- Claim C9: in the program-order trace of execute.py, all three samplers
are started before the start timestamp is taken, the stop signals are all
sent after the end timestamp is taken, and every CSV read happens after
every stop signal. -/
theorem c9_sampler_window_ordering :
    (executeTrace.indexOf .startEnergyContainer < executeTrace.indexOf .takeStartTime ∧
     executeTrace.indexOf .startGpuSampler < executeTrace.indexOf .takeStartTime ∧
     executeTrace.indexOf .startDockerSampler < executeTrace.indexOf .takeStartTime) ∧
    (executeTrace.indexOf .takeStartTime < executeTrace.indexOf .runWorkload ∧
     executeTrace.indexOf .runWorkload < executeTrace.indexOf .takeEndTime) ∧
    (executeTrace.indexOf .takeEndTime < executeTrace.indexOf .signalGpuStop ∧
     executeTrace.indexOf .takeEndTime < executeTrace.indexOf .signalDockerStop ∧
     executeTrace.indexOf .takeEndTime < executeTrace.indexOf .signalEnergyStop) ∧
    (∀ r ∈ [Ev.readGpuCsv, Ev.readCpuCsv, Ev.readDockerCsv],
     ∀ s ∈ [Ev.signalGpuStop, Ev.signalDockerStop, Ev.signalEnergyStop],
       executeTrace.indexOf s < executeTrace.indexOf r) := by
  decide

/-- Claim C3 counterexample: with energy rows `cpu_energy = [10, 20]` and TWO
container-stats rows of 50% each on 1 logical CPU, the code computes
`cpu_util = 1 / (2 + 1e-6) / 1` (because `num_rows` starts at `1e-6`, line
71), so the apportioned cpu_energy is `30000000/2000001 ≈ 14.9999925`, which
is `15/2000001 ≈ 7.5e-6` away from 15.0 — outside the claimed 1e-6
tolerance. -/
theorem c3_two_rows_outside_tolerance :
    ¬ |(15 : ℚ) -
        (aggregate [] [⟨10, 0⟩, ⟨20, 0⟩] [⟨50, 50⟩, ⟨50, 50⟩] 1 1 1 1).cpu_energy| ≤
      1 / 1000000 := by
  norm_num [aggregate, dockerLoop, initDockerStats, gpuLoop, cpuLoop, abs]

/-- Claim C3 amended: with energy rows `cpu_energy = [10, 20]` and `n`
container-stats rows of 50% each on 1 logical CPU, the apportioned cpu_energy
equals `30 * (n/2) / (n + 1e-6)`; because `num_rows` is initialized to `1e-6`
the deviation from 15.0 is `15e-6 / (n + 1e-6)`, which is within the 1e-6
tolerance exactly when at least 15 rows were sampled. -/
theorem c3_cpu_energy_apportioned (n : ℕ) (tm ni te : ℚ) (h : 15 ≤ n) :
    |(15 : ℚ) -
        (aggregate [] [⟨10, 0⟩, ⟨20, 0⟩] (List.replicate n ⟨50, 50⟩) 1 tm ni te).cpu_energy| ≤
      1 / 1000000 := by
  have hq : (15 : ℚ) ≤ (n : ℚ) := by exact_mod_cast h
  have hd : (0 : ℚ) < 1 / 1000000 + (n : ℚ) := by positivity
  have hcu : (dockerLoop (List.replicate n ⟨50, 50⟩) initDockerStats).cpu_util =
      (n : ℚ) / 2 := by
    rw [(dockerLoop_replicate_fifty n initDockerStats).1]
    norm_num [initDockerStats]
  have hnr : (dockerLoop (List.replicate n ⟨50, 50⟩) initDockerStats).num_rows =
      1 / 1000000 + (n : ℚ) := by
    rw [(dockerLoop_replicate_fifty n initDockerStats).2]
    norm_num [initDockerStats]
  simp only [aggregate, cpuLoop, gpuLoop, hcu, hnr, Nat.cast_one]
  have key : ((0 : ℚ) + 10 + 20) * ((n : ℚ) / 2 / (1 / 1000000 + (n : ℚ)) / 1) =
      15 * (n : ℚ) / (1 / 1000000 + (n : ℚ)) := by
    field_simp
    ring
  rw [key]
  have h1 : (15 : ℚ) - 15 * (n : ℚ) / (1 / 1000000 + (n : ℚ)) =
      (15 / 1000000) / (1 / 1000000 + (n : ℚ)) := by
    field_simp
    ring
  rw [h1, abs_of_nonneg (by positivity), div_le_iff₀ hd]
  linarith

/-- Claim C3 witness: at 15 container rows the amended bound is tight and the
apportioned energy is within 1e-6 of 15.0. -/
theorem c3_witness :
    |(15 : ℚ) -
        (aggregate [] [⟨10, 0⟩, ⟨20, 0⟩] (List.replicate 15 ⟨50, 50⟩) 1 1 1 1).cpu_energy| ≤
      1 / 1000000 :=
  c3_cpu_energy_apportioned 15 1 1 1 (by norm_num)

/-- A row with a failing numeric field makes the docker.csv loop raise
(propagate `ValueError`), wherever the row sits. -/
theorem dockerLoopRaw_error_of_bad (rows : List DockerRowRaw)
    (hb : ∃ r ∈ rows, r.cpu_util = none ∨ r.mem_util = none) :
    ∀ s, dockerLoopRaw rows s = .error () := by
  induction rows with
  | nil => rcases hb with ⟨r, hr, _⟩; simp at hr
  | cons head tail ih =>
    intro s
    rcases hb with ⟨r, hr, hbad⟩
    rcases List.mem_cons.mp hr with heq | htail
    · subst heq
      cases hcu : r.cpu_util with
      | none => simp [dockerLoopRaw, hcu]
      | some cu =>
        cases hmu : r.mem_util with
        | none => simp [dockerLoopRaw, hcu, hmu]
        | some mu => rw [hcu, hmu] at hbad; simp at hbad
    · cases hcu : head.cpu_util with
      | none => simp [dockerLoopRaw, hcu]
      | some cu =>
        cases hmu : head.mem_util with
        | none => simp [dockerLoopRaw, hcu, hmu]
        | some mu =>
          simp only [dockerLoopRaw, hcu, hmu]
          exact ih ⟨r, htail, hbad⟩ _

/-- Claim C4 counterexample: a file with two perfectly valid rows around one
malformed row is not "skipped and continued" — the aggregation aborts with
the propagated `ValueError`, even though two valid rows exist. -/
theorem c4_malformed_row_not_skipped :
    aggregateDockerRaw
      [⟨some 50, some 50⟩, ⟨none, some 50⟩, ⟨some 50, some 50⟩] 1 = .error () := by
  rfl

/-- Claim C4 amended: a row whose numeric field fails parsing aborts the
docker-stats aggregation immediately (the `ValueError` propagates and the run
crashes); no row is ever skipped.  A file with zero rows, by contrast, is not
an error at all: it aggregates to zero utilizations (thanks to the `1e-6`
initial `num_rows`). -/
theorem c4_parse_failure_is_fatal :
    (∀ rows (num_cpus : ℕ),
        (∃ r ∈ rows, r.cpu_util = none ∨ r.mem_util = none) →
        aggregateDockerRaw rows num_cpus = .error ()) ∧
    (∀ num_cpus : ℕ, aggregateDockerRaw [] num_cpus = .ok (0, 0, 0)) := by
  constructor
  · intro rows num_cpus hb
    unfold aggregateDockerRaw
    rw [dockerLoopRaw_error_of_bad rows hb]
    rfl
  · intro num_cpus
    norm_num [aggregateDockerRaw, dockerLoopRaw, initDockerStats, Except.map,
      Prod.ext_iff]

/-- Claim C4 witness: a single unparsable row aborts the aggregation. -/
theorem c4_witness :
    aggregateDockerRaw [⟨none, some 50⟩] 1 = .error () :=
  c4_parse_failure_is_fatal.1 [⟨none, some 50⟩] 1
    ⟨⟨none, some 50⟩, by simp, Or.inl rfl⟩

/-- Claim C7: the printed total energy is exactly the GPU energy plus the
raw CPU-energy sum weighted by the computed CPU-utilization fraction plus the
raw DRAM-energy sum weighted by the computed memory-utilization fraction
(execute.py lines 79-90); the identity is exact, hence within 1e-6. -/
theorem c7_total_energy_decomposition (gpuRows : List GpuRow)
    (cpuRows : List CpuRow) (dockerRows : List DockerRow) (num_cpus : ℕ)
    (tm ni te : ℚ) :
    |(aggregate gpuRows cpuRows dockerRows num_cpus tm ni te).total_energy -
        ((aggregate gpuRows cpuRows dockerRows num_cpus tm ni te).gpu_energy +
          (cpuRows.map CpuRow.cpu_energy).sum *
            (aggregate gpuRows cpuRows dockerRows num_cpus tm ni te).cpu_util +
          (cpuRows.map CpuRow.dram_energy).sum *
            (aggregate gpuRows cpuRows dockerRows num_cpus tm ni te).mem_util)| ≤
      1 / 1000000 := by
  have h : (aggregate gpuRows cpuRows dockerRows num_cpus tm ni te).total_energy =
      (aggregate gpuRows cpuRows dockerRows num_cpus tm ni te).gpu_energy +
        (cpuRows.map CpuRow.cpu_energy).sum *
          (aggregate gpuRows cpuRows dockerRows num_cpus tm ni te).cpu_util +
        (cpuRows.map CpuRow.dram_energy).sum *
          (aggregate gpuRows cpuRows dockerRows num_cpus tm ni te).mem_util := by
    simp [aggregate, cpuLoop_eq]
  rw [h]
  simp

/-- Claim C8: three existing but zero-row sampler files aggregate without
error to an all-zero report (energies, utilizations, peak memories), while an
absent sampler file makes the aggregation phase raise. -/
theorem c8_zero_rows_ok_missing_file_fatal :
    (∀ (num_cpus : ℕ) (tm ni te : ℚ), ∃ r : Report,
        aggregateRun (some []) (some []) (some []) num_cpus tm ni te = .ok r ∧
        r.gpu_energy = 0 ∧ r.cpu_energy = 0 ∧ r.mem_energy = 0 ∧
        r.total_energy = 0 ∧ r.cpu_util = 0 ∧ r.mem_util = 0 ∧
        r.max_gpu_mem = 0 ∧ r.max_dram_mem = 0) ∧
    (∀ (gf : Option (List GpuRow)) (cf : Option (List CpuRow))
        (df : Option (List DockerRow)) (num_cpus : ℕ) (tm ni te : ℚ),
        gf = none ∨ cf = none ∨ df = none →
        aggregateRun gf cf df num_cpus tm ni te = .error ()) := by
  constructor
  · intro num_cpus tm ni te
    refine ⟨aggregate [] [] [] num_cpus tm ni te, rfl, ?_⟩
    norm_num [aggregate, gpuLoop, cpuLoop, dockerLoop, initDockerStats]
  · intro gf cf df num_cpus tm ni te h
    rcases h with rfl | rfl | rfl
    · rfl
    · cases gf <;> rfl
    · cases gf <;> cases cf <;> rfl

/-- Claim C8 witness: a missing gpu.csv aborts the aggregation phase. -/
theorem c8_witness :
    aggregateRun none (some []) (some []) 1 1 1 1 = .error () :=
  c8_zero_rows_ok_missing_file_fatal.2 none (some []) (some []) 1 1 1 1
    (Or.inl rfl)

/-- On a stream of well-formed JSON-array lines the wrapper emits, per line
and in order, exactly one write of the predictor's output array immediately
followed by one flush, and does not abort. -/
theorem stdioPredictorWrapper_valid {α β : Type} (predict : List α → List β)
    (valid : List (List α)) :
    stdioPredictorWrapper predict (valid.map some) =
      (valid.flatMap fun i => [OutEvent.writeArrayLine (predict i), OutEvent.flush],
        false) := by
  induction valid with
  | nil => rfl
  | cons v vs ih => simp [stdioPredictorWrapper, ih]

/-- A line that is not valid JSON or not an array aborts the loop: the lines
before it are each answered normally, nothing after it is processed. -/
theorem stdioPredictorWrapper_abort {α β : Type} (predict : List α → List β)
    (valid : List (List α)) (post : List (Option (List α))) :
    stdioPredictorWrapper predict (valid.map some ++ none :: post) =
      (valid.flatMap fun i => [OutEvent.writeArrayLine (predict i), OutEvent.flush],
        true) := by
  induction valid with
  | nil => rfl
  | cons v vs ih => simp [stdioPredictorWrapper, ih]

/-- Claim C6: for every stdin line that decodes as a JSON array the wrapper
writes exactly one response line — the JSON-encoded array produced by the
predictor, which has the request's length and positional order whenever the
predictor meets its one-output-per-input contract — and flushes immediately
after each write; a line that is not valid JSON or not an array aborts the
request loop, leaving earlier responses intact and later lines unprocessed. -/
theorem c6_wrapper_protocol {α β : Type} (predict : List α → List β)
    (hlen : ∀ xs, (predict xs).length = xs.length)
    (valid : List (List α)) (post : List (Option (List α))) :
    stdioPredictorWrapper predict (valid.map some) =
      (valid.flatMap fun i => [OutEvent.writeArrayLine (predict i), OutEvent.flush],
        false) ∧
    (∀ i ∈ valid, (predict i).length = i.length) ∧
    stdioPredictorWrapper predict (valid.map some ++ none :: post) =
      (valid.flatMap fun i => [OutEvent.writeArrayLine (predict i), OutEvent.flush],
        true) :=
  ⟨stdioPredictorWrapper_valid predict valid, fun i _ => hlen i,
    stdioPredictorWrapper_abort predict valid post⟩

/-- Claim C6 witness: an identity predictor on the single request line
`["a", "b"]` yields one write of the two-element array followed by one
flush, with no abort. -/
theorem c6_witness :
    stdioPredictorWrapper (fun xs : List String => xs) [some ["a", "b"]] =
      ([OutEvent.writeArrayLine ["a", "b"], OutEvent.flush], false) := by
  have h := (c6_wrapper_protocol (fun xs : List String => xs) (fun xs => rfl)
    [["a", "b"]] []).1
  simpa using h

theorem dedupF_mem {α : Type} [DecidableEq α] (a : α) (l : List α) :
    a ∈ dedupF l ↔ a ∈ l := by
  induction l using dedupF.induct with
  | case1 => simp [dedupF]
  | case2 x xs ih =>
    rw [dedupF]
    simp only [List.mem_cons, ih, List.mem_filter, decide_eq_true_eq]
    by_cases hax : a = x
    · simp [hax]
    · simp [hax]

theorem dedupF_nodup {α : Type} [DecidableEq α] (l : List α) :
    (dedupF l).Nodup := by
  induction l using dedupF.induct with
  | case1 => simp [dedupF]
  | case2 x xs ih =>
    rw [dedupF, List.nodup_cons]
    refine ⟨?_, ih⟩
    rw [dedupF_mem]
    simp

/-- Filtering preserves the relative order of first occurrences. -/
theorem indexOf_lt_of_filter_indexOf_lt {α : Type} [DecidableEq α]
    (p : α → Bool) :
    ∀ (l : List α) (a b : α), a ∈ l.filter p → b ∈ l.filter p →
      (l.filter p).indexOf a < (l.filter p).indexOf b →
      l.indexOf a < l.indexOf b
  | [], a, b, ha, _, _ => by simp at ha
  | c :: t, a, b, ha, hb, h => by
    by_cases hpc : p c
    · rw [List.filter_cons_of_pos hpc] at ha hb h
      by_cases hac : a = c
      · subst hac
        have hba : b ≠ a := by
          intro e
          subst e
          simp [List.indexOf_cons_self] at h
        rw [List.indexOf_cons_self, List.indexOf_cons_ne _ (Ne.symm hba)]
        exact Nat.succ_pos _
      · have hbc : b ≠ c := by
          intro e
          subst e
          simp [List.indexOf_cons_self] at h
        rw [List.indexOf_cons_ne _ (Ne.symm hac),
          List.indexOf_cons_ne _ (Ne.symm hbc)] at h
        rw [List.indexOf_cons_ne _ (Ne.symm hac),
          List.indexOf_cons_ne _ (Ne.symm hbc)]
        have ha' : a ∈ t.filter p := by
          rcases List.mem_cons.mp ha with e | m
          · exact absurd e hac
          · exact m
        have hb' : b ∈ t.filter p := by
          rcases List.mem_cons.mp hb with e | m
          · exact absurd e hbc
          · exact m
        exact Nat.succ_lt_succ
          (indexOf_lt_of_filter_indexOf_lt p t a b ha' hb'
            (Nat.lt_of_succ_lt_succ h))
    · rw [List.filter_cons_of_neg hpc] at ha hb h
      have hac : a ≠ c := by
        intro e
        subst e
        exact hpc ((List.mem_filter.mp ha).2)
      have hbc : b ≠ c := by
        intro e
        subst e
        exact hpc ((List.mem_filter.mp hb).2)
      rw [List.indexOf_cons_ne _ (Ne.symm hac),
        List.indexOf_cons_ne _ (Ne.symm hbc)]
      exact Nat.succ_lt_succ
        (indexOf_lt_of_filter_indexOf_lt p t a b ha hb h)

/-- `List.indexOf` does not depend on which lawful `BEq` instance is in
scope. -/
theorem indexOf_beq_indep {α : Type} [inst : BEq α] [LawfulBEq α]
    [DecidableEq α] (a : α) :
    ∀ l : List α, l.indexOf a = @List.indexOf α instBEqOfDecidableEq a l
  | [] => rfl
  | b :: l => by
    rw [List.indexOf_cons, @List.indexOf_cons α b l a instBEqOfDecidableEq]
    have h1 : (b == a) = decide (b = a) := by
      by_cases hba : b = a
      · simp [hba]
      · simp [hba]
    rw [h1, indexOf_beq_indep a l]
    rfl

/-- The elements of `dedupF l` appear in order of first occurrence in `l`. -/
theorem dedupF_pairwise_indexOf {α : Type} [DecidableEq α] (l : List α) :
    (dedupF l).Pairwise fun a b => l.indexOf a < l.indexOf b := by
  induction l using dedupF.induct with
  | case1 => simp [dedupF]
  | case2 x xs ih =>
    rw [dedupF]
    refine List.Pairwise.cons ?_ ?_
    · intro b hb
      have hbf : b ∈ xs.filter fun y => y ≠ x := (dedupF_mem _ _).mp hb
      have hbx : b ≠ x := by simpa using (List.mem_filter.mp hbf).2
      rw [List.indexOf_cons_self, List.indexOf_cons_ne _ (Ne.symm hbx)]
      exact Nat.succ_pos _
    · refine ih.imp_of_mem ?_
      intro a b ha hb hlt
      have haf : a ∈ xs.filter fun y => y ≠ x := (dedupF_mem _ _).mp ha
      have hbf : b ∈ xs.filter fun y => y ≠ x := (dedupF_mem _ _).mp hb
      have hax : a ≠ x := by simpa using (List.mem_filter.mp haf).2
      have hbx : b ≠ x := by simpa using (List.mem_filter.mp hbf).2
      rw [List.indexOf_cons_ne _ (Ne.symm hax),
        List.indexOf_cons_ne _ (Ne.symm hbx)]
      exact Nat.succ_lt_succ
        (indexOf_lt_of_filter_indexOf_lt _ xs a b haf hbf hlt)

/-- The candidate loop of `get_answers` computes the first-occurrence
deduplication of the not-yet-seen parses, appended to the accumulator. -/
theorem getAnswersLoop_eq_dedupF :
    ∀ (cands : List AnswerRec) (ans : List (List String)),
      getAnswersLoop cands ans =
        ans ++ dedupF ((cands.map parse_answer).filter fun y => y ∉ ans)
  | [], ans => by simp [getAnswersLoop, dedupF]
  | c :: rest, ans => by
    by_cases ha : parse_answer c ∈ ans
    · rw [List.map_cons, List.filter_cons_of_neg (by simpa using ha)]
      simp only [getAnswersLoop, if_pos ha]
      exact getAnswersLoop_eq_dedupF rest ans
    · rw [List.map_cons, List.filter_cons_of_pos (by simpa using ha)]
      simp only [getAnswersLoop, if_neg ha]
      rw [getAnswersLoop_eq_dedupF rest (ans ++ [parse_answer c]), dedupF,
        List.filter_filter]
      have hfilt :
          ((rest.map parse_answer).filter fun y =>
              y ∉ ans ++ [parse_answer c]) =
            (rest.map parse_answer).filter fun y =>
              decide (y ≠ parse_answer c) && decide (y ∉ ans) := by
        refine List.filter_congr fun y _ => ?_
        rw [← Bool.decide_and, decide_eq_decide]
        simp [List.mem_append, not_or, and_comm]
      rw [hfilt]
      simp

/-- Claim C10: whenever `get_answers` succeeds, the result is a
duplicate-free list whose head is the parse of the primary answer field,
whose membership is exactly the set of parsed candidates (primary answer
first, then the flattened validated answers), whose elements are ordered by
first occurrence among those parsed candidates, and each of whose elements
is produced by `parse_answer` on some candidate. -/
theorem c10_get_answers_spec (qa : QA) (answers : List (List String))
    (h : get_answers qa = some answers) :
    ∃ flat, flattenValidatedAnswers qa.validated_answers = some flat ∧
      answers.Nodup ∧
      answers.head? = some (parse_answer qa.answer) ∧
      (∀ x, x ∈ answers ↔ x ∈ (qa.answer :: flat).map parse_answer) ∧
      answers.Pairwise (fun a b =>
        ((qa.answer :: flat).map parse_answer).indexOf a <
          ((qa.answer :: flat).map parse_answer).indexOf b) ∧
      (∀ x ∈ answers, ∃ c ∈ qa.answer :: flat, x = parse_answer c) := by
  unfold get_answers at h
  obtain ⟨flat, hf, hrun⟩ := Option.map_eq_some'.mp h
  have hkey : answers = dedupF ((qa.answer :: flat).map parse_answer) := by
    rw [← hrun, getAnswersLoop_eq_dedupF]
    simp
  refine ⟨flat, hf, ?_, ?_, ?_, ?_, ?_⟩
  · rw [hkey]
    exact dedupF_nodup _
  · rw [hkey, List.map_cons, dedupF]
    rfl
  · intro x
    rw [hkey, dedupF_mem]
  · rw [hkey]
    refine (dedupF_pairwise_indexOf ((qa.answer :: flat).map parse_answer)).imp ?_
    intro a b hab
    rw [indexOf_beq_indep a, indexOf_beq_indep b]
    exact hab
  · intro x hx
    have hx2 : x ∈ (qa.answer :: flat).map parse_answer := by
      rw [hkey, dedupF_mem] at hx
      exact hx
    obtain ⟨c, hc, hcx⟩ := List.mem_map.mp hx2
    exact ⟨c, hc, hcx.symm⟩

/-- Claim C10 witness: a record whose primary answer is the number "3" and
whose validated answers are the numbers "3" and "8" yields exactly
`[("3"), ("8")]`, with all the characterization conjuncts instantiated. -/
theorem c10_witness :
    ∃ flat,
      flattenValidatedAnswers
          ⟨["3", "8"], [⟨"", "", ""⟩, ⟨"", "", ""⟩], [[], []]⟩ = some flat ∧
      ([["3"], ["8"]] : List (List String)).Nodup ∧
      ([["3"], ["8"]] : List (List String)).head? =
        some (parse_answer ⟨"3", ⟨"", "", ""⟩, []⟩) ∧
      (∀ x, x ∈ ([["3"], ["8"]] : List (List String)) ↔
        x ∈ ((⟨"3", ⟨"", "", ""⟩, []⟩ : AnswerRec) :: flat).map parse_answer) ∧
      ([["3"], ["8"]] : List (List String)).Pairwise (fun a b =>
        (((⟨"3", ⟨"", "", ""⟩, []⟩ : AnswerRec) :: flat).map parse_answer).indexOf a <
          (((⟨"3", ⟨"", "", ""⟩, []⟩ : AnswerRec) :: flat).map parse_answer).indexOf b) ∧
      (∀ x ∈ ([["3"], ["8"]] : List (List String)),
        ∃ c ∈ (⟨"3", ⟨"", "", ""⟩, []⟩ : AnswerRec) :: flat, x = parse_answer c) :=
  c10_get_answers_spec
    ⟨⟨"3", ⟨"", "", ""⟩, []⟩, ⟨["3", "8"], [⟨"", "", ""⟩, ⟨"", "", ""⟩], [[], []]⟩⟩
    [["3"], ["8"]] (by rfl)

end EffPent
